import Mathlib

/-!
A shallow embedding of the splice-alt ingestion pipeline
(src/backend/src/watcher.rs, metadata.rs, db.rs) and proofs about it.

Machine integers are modelled as `Nat` with explicit reduction modulo
`2^32` where the Rust code relies on 32-bit wrapping; byte sequences are
`List Nat` (each entry < 256); file paths are `String`; the filesystem is
an explicit association list from path to byte content plus a directory
set; the SQLite samples table is a list of records.  Sleeping does not
change any modelled state, so retry loops are modelled as functions of a
per-attempt outcome oracle that additionally return the trace of sleep
durations (in milliseconds) they would perform.
-/

namespace SpliceAlt

/-! ## SHA-256 (models the sha2 crate's `Sha256` plus the lowercase-hex
rendering `format!("\x7b:x\x7d", result)` used by `calculate_file_hash`).
Bytes in, lowercase hex digest out, per FIPS 180-4. -/

def m32 : Nat := 4294967296

def rotr32 (n x : Nat) : Nat := ((x >>> n) ||| (x <<< (32 - n))) % m32

def shr32 (n x : Nat) : Nat := x >>> n

def bigSigma0 (x : Nat) : Nat := (rotr32 2 x) ^^^ (rotr32 13 x) ^^^ (rotr32 22 x)

def bigSigma1 (x : Nat) : Nat := (rotr32 6 x) ^^^ (rotr32 11 x) ^^^ (rotr32 25 x)

def smallSigma0 (x : Nat) : Nat := (rotr32 7 x) ^^^ (rotr32 18 x) ^^^ (shr32 3 x)

def smallSigma1 (x : Nat) : Nat := (rotr32 17 x) ^^^ (rotr32 19 x) ^^^ (shr32 10 x)

def ch32 (x y z : Nat) : Nat := (x &&& y) ^^^ ((x ^^^ 4294967295) &&& z)

def maj32 (x y z : Nat) : Nat := (x &&& y) ^^^ (x &&& z) ^^^ (y &&& z)

def sha256K : List Nat :=
  [1116352408, 1899447441, 3049323471, 3921009573, 961987163, 1508970993,
   2453635748, 2870763221, 3624381080, 310598401, 607225278, 1426881987,
   1925078388, 2162078206, 2614888103, 3248222580, 3835390401, 4022224774,
   264347078, 604807628, 770255983, 1249150122, 1555081692, 1996064986,
   2554220882, 2821834349, 2952996808, 3210313671, 3336571891, 3584528711,
   113926993, 338241895, 666307205, 773529912, 1294757372, 1396182291,
   1695183700, 1986661051, 2177026350, 2456956037, 2730485921, 2820302411,
   3259730800, 3345764771, 3516065817, 3600352804, 4094571909, 275423344,
   430227734, 506948616, 659060556, 883997877, 958139571, 1322822218,
   1537002063, 1747873779, 1955562222, 2024104815, 2227730452, 2361852424,
   2428436474, 2756734187, 3204031479, 3329325298]

structure Hash8 where
  a : Nat
  b : Nat
  c : Nat
  d : Nat
  e : Nat
  f : Nat
  g : Nat
  h : Nat
deriving DecidableEq, Repr

def sha256H0 : Hash8 :=
  ⟨1779033703, 3144134277, 1013904242, 2773480762, 1359893119, 2600822924, 528734635, 1541459225⟩

/-- Big-endian 64-bit length field of the padding. -/
def lenBytes64 (n : Nat) : List Nat :=
  [(n >>> 56) % 256, (n >>> 48) % 256, (n >>> 40) % 256, (n >>> 32) % 256,
   (n >>> 24) % 256, (n >>> 16) % 256, (n >>> 8) % 256, n % 256]

def sha256Pad (msg : List Nat) : List Nat :=
  let L := msg.length
  let k := (119 - (L % 64)) % 64
  msg ++ (0x80 :: List.replicate k 0) ++ lenBytes64 (8 * L)

/-- Group a byte stream into big-endian 32-bit words. -/
def bytesToWords : List Nat → List Nat
  | a :: b :: c :: d :: rest =>
      (a * 16777216 + b * 65536 + c * 256 + d) :: bytesToWords rest
  | _ => []

/-- Split a word stream into 16-word (64-byte) blocks. -/
def wordsToBlocks : List Nat → List (List Nat)
  | w0 :: w1 :: w2 :: w3 :: w4 :: w5 :: w6 :: w7 ::
    w8 :: w9 :: w10 :: w11 :: w12 :: w13 :: w14 :: w15 :: rest =>
      [w0, w1, w2, w3, w4, w5, w6, w7, w8, w9, w10, w11, w12, w13, w14, w15] ::
        wordsToBlocks rest
  | _ => []

/-- Message-schedule extension: `wrev` is the schedule so far, most recent
word first; each step prepends `σ1(w[i-2]) + w[i-7] + σ0(w[i-15]) + w[i-16]`. -/
def extendSchedule : Nat → List Nat → List Nat
  | 0, wrev => wrev
  | fuel + 1, wrev =>
      let w2 := wrev.getD 1 0
      let w7 := wrev.getD 6 0
      let w15 := wrev.getD 14 0
      let w16 := wrev.getD 15 0
      extendSchedule fuel (((smallSigma1 w2 + w7 + smallSigma0 w15 + w16) % m32) :: wrev)

def sha256Round (s : Hash8) (kw : Nat × Nat) : Hash8 :=
  let t1 := (s.h + bigSigma1 s.e + ch32 s.e s.f s.g + kw.1 + kw.2) % m32
  let t2 := (bigSigma0 s.a + maj32 s.a s.b s.c) % m32
  ⟨(t1 + t2) % m32, s.a, s.b, s.c, (s.d + t1) % m32, s.e, s.f, s.g⟩

def sha256Block (st : Hash8) (block : List Nat) : Hash8 :=
  let w := (extendSchedule 48 block.reverse).reverse
  let r := (sha256K.zip w).foldl sha256Round st
  ⟨(st.a + r.a) % m32, (st.b + r.b) % m32, (st.c + r.c) % m32, (st.d + r.d) % m32,
   (st.e + r.e) % m32, (st.f + r.f) % m32, (st.g + r.g) % m32, (st.h + r.h) % m32⟩

def hexDigit (n : Nat) : Char :=
  if n < 10 then Char.ofNat (48 + n) else Char.ofNat (87 + n)

def word32ToHex (w : Nat) : List Char :=
  [hexDigit ((w >>> 28) % 16), hexDigit ((w >>> 24) % 16), hexDigit ((w >>> 20) % 16),
   hexDigit ((w >>> 16) % 16), hexDigit ((w >>> 12) % 16), hexDigit ((w >>> 8) % 16),
   hexDigit ((w >>> 4) % 16), hexDigit (w % 16)]

/-- SHA-256 of a byte sequence, rendered as the 64-character lowercase hex
string that `calculate_file_hash` produces. -/
def sha256hex (msg : List Nat) : String :=
  let fin := (wordsToBlocks (bytesToWords (sha256Pad msg))).foldl sha256Block sha256H0
  String.mk (word32ToHex fin.a ++ word32ToHex fin.b ++ word32ToHex fin.c ++ word32ToHex fin.d ++
             word32ToHex fin.e ++ word32ToHex fin.f ++ word32ToHex fin.g ++ word32ToHex fin.h)

example : sha256hex [65, 65, 65, 65] = "63c1dd951ffedf6f7fd968ad4efa39b8ed584f162f46e715114ee184f8de9201" := by decide

/-! ## String utilities -/

/-- Test `startsWithL n l` : the char list `n` starts the list `l`. -/
def startsWithL : List Char → List Char → Bool
  | [], _ => true
  | _ :: _, [] => false
  | a :: as, b :: bs => a == b && startsWithL as bs

/-- Test `containsL n l` : the char list `n` occurs contiguously inside `l`. -/
def containsL (n : List Char) : List Char → Bool
  | [] => startsWithL n []
  | c :: cs => startsWithL n (c :: cs) || containsL n cs

/-- Test `strContains hay needle` : `needle` occurs as a substring of `hay`. -/
def strContains (hay needle : String) : Bool :=
  containsL needle.data hay.data

/-! ## metadata.rs : sanitization, category table, library path -/

/-- Rust `char::is_control`: the Unicode Cc category,
U+0000..U+001F and U+007F..U+009F. -/
def isControlChar (c : Char) : Bool :=
  c.toNat < 0x20 || (0x7f ≤ c.toNat && c.toNat ≤ 0x9f)

/-- Rust `char::is_whitespace`: the Unicode White_Space property
(the 25 code points with that property), used by `str::trim`. -/
def isRustWhitespace (c : Char) : Bool :=
  c.toNat = 0x09 || c.toNat = 0x0a || c.toNat = 0x0b || c.toNat = 0x0c || c.toNat = 0x0d ||
  c.toNat = 0x20 || c.toNat = 0x85 || c.toNat = 0xa0 || c.toNat = 0x1680 ||
  (0x2000 ≤ c.toNat && c.toNat ≤ 0x200a) ||
  c.toNat = 0x2028 || c.toNat = 0x2029 || c.toNat = 0x202f || c.toNat = 0x205f ||
  c.toNat = 0x3000

/-- The per-character replacement of `sanitize_filename`
(metadata.rs lines 255-265), character for character from the Rust match. -/
def sanitizeChar (c : Char) : Option Char :=
  if c = '/' || c = Char.ofNat 92 then some '-'
  else if c = ':' then some '-'
  else if c = '*' || c = '?' || c = Char.ofNat 0 then none
  else if c = Char.ofNat 34 then some (Char.ofNat 39)
  else if c = '<' || c = '>' then some '-'
  else if c = '|' then some '-'
  else if isControlChar c then some '_'
  else some c

/-- Rust `str::trim` on a char list: drop leading and trailing whitespace. -/
def trimChars (l : List Char) : List Char :=
  ((l.dropWhile isRustWhitespace).reverse.dropWhile isRustWhitespace).reverse

/-- metadata.rs `sanitize_filename`: filter-map each character through the
replacement table, then trim surrounding whitespace. -/
def sanitize_filename (name : String) : String :=
  String.mk (trimChars (name.data.filterMap sanitizeChar))

/-- metadata.rs `BitwigCategory`. -/
inductive BitwigCategory where
  | Bass | Bell | Brass | Chip | Cymbal | Drone | DrumLoop | Guitar | HiHat
  | Keyboards | Kick | Lead | Mallet | Orchestral | Organ | OtherDrums | Pad
  | Percussion | Piano | Snare | SoundFX | Strings | Synth | Tom | Unknown
  | Vocal | Winds
deriving DecidableEq, Repr

def BitwigCategory.as_str : BitwigCategory → String
  | .Bass => "Bass"
  | .Bell => "Bell"
  | .Brass => "Brass"
  | .Chip => "Chip"
  | .Cymbal => "Cymbal"
  | .Drone => "Drone"
  | .DrumLoop => "Drum Loop"
  | .Guitar => "Guitar"
  | .HiHat => "Hi-hat"
  | .Keyboards => "Keyboards"
  | .Kick => "Kick"
  | .Lead => "Lead"
  | .Mallet => "Mallet"
  | .Orchestral => "Orchestral"
  | .Organ => "Organ"
  | .OtherDrums => "Other Drums"
  | .Pad => "Pad"
  | .Percussion => "Percussion"
  | .Piano => "Piano"
  | .Snare => "Snare"
  | .SoundFX => "Sound FX"
  | .Strings => "Strings"
  | .Synth => "Synth"
  | .Tom => "Tom"
  | .Unknown => "Unknown"
  | .Vocal => "Vocal"
  | .Winds => "Winds"

/-- One already-lowercased tag against the rule table of
`map_tags_to_category` (metadata.rs lines 185-216), arm for arm. -/
def tagRule (t : String) : Option BitwigCategory :=
  if t = "kick" || t = "kicks" then some .Kick
  else if t = "snare" || t = "snares" then some .Snare
  else if t = "hihat" || t = "hi-hat" || t = "hihats" || t = "hi-hats" then some .HiHat
  else if t = "cymbal" || t = "cymbals" then some .Cymbal
  else if t = "tom" || t = "toms" then some .Tom
  else if t = "percussion" || t = "perc" then some .Percussion
  else if t = "drum loop" || t = "drum loops" || t = "drums" then some .DrumLoop
  else if t = "bass" || t = "bassline" || t = "sub bass" then some .Bass
  else if t = "lead" || t = "leads" || t = "lead synth" then some .Lead
  else if t = "pad" || t = "pads" || t = "ambient" then some .Pad
  else if t = "synth" || t = "synthesizer" then some .Synth
  else if t = "piano" then some .Piano
  else if t = "guitar" then some .Guitar
  else if t = "organ" then some .Organ
  else if t = "bell" || t = "bells" then some .Bell
  else if t = "brass" then some .Brass
  else if t = "strings" || t = "string" then some .Strings
  else if t = "vocal" || t = "vocals" || t = "voice" then some .Vocal
  else if t = "fx" || t = "sfx" || t = "sound fx" || t = "effects" then some .SoundFX
  else if t = "drone" || t = "texture" then some .Drone
  else none

/-- Rust `str::to_lowercase`, modelled at ASCII level (the rule table is
ASCII-only): lowercase every character. -/
def rustToLower (s : String) : String :=
  String.mk (s.data.map Char.toLower)

/-- The `for tag in &tags_lower` loop of `map_tags_to_category`: return the
category of the first tag matching any rule. -/
def firstRuleMatch : List String → BitwigCategory
  | [] => .Unknown
  | t :: ts =>
      match tagRule t with
      | some c => c
      | none => firstRuleMatch ts

/-- metadata.rs `map_tags_to_category`: lowercase every tag
(Rust `to_lowercase`; ASCII case-folding in this model), then take the
first rule match, defaulting to `Unknown`. -/
def map_tags_to_category (tags : List String) : BitwigCategory :=
  firstRuleMatch (tags.map rustToLower)

/-! ## metadata.rs : the metadata document -/

structure Encoding where
  name : String
  decoded_format : String
  decoded_hash : String
  decoded_size : Nat
deriving DecidableEq, Repr

structure Sample where
  url : String
  path : String
  sas_id : String
  file_hash : String
  file_size : Nat
  encoding : Encoding
  sample_type : Nat
deriving DecidableEq, Repr

structure Pack where
  uuid : String
  name : String
  description : String
  provider_name : String
  provider_description : String
  cover_url : String
  banner_url : String
  main_genre : String
  sample_count : Nat
  preset_count : Nat
  permalink : String
  is_archived : Bool
deriving DecidableEq, Repr

structure SampleMetaData where
  audio_key : Option String
  bpm : Option Nat
  chord_type : Option String
  dir : String
  duration : Nat
  file_hash : String
  filename : String
  pack : Pack
  preview_url : String
  price : Nat
  provider_name : String
  provider_uuid : String
  provider_permalink : String
  sample_type : String
  tags : List String
  waveform_url : String
  published : Bool
  popularity : Nat
  trending : Nat
  published_at : String
  purchased_at : String
  sas_id : String
  liked : Bool
  licensed : Bool
  asset_uuid : String
deriving DecidableEq, Repr

structure SampleMetadata where
  sample : Sample
  sample_meta_data : SampleMetaData
  remaining_credits : Option Nat
  purchase_etag : Option String
deriving DecidableEq, Repr

def SampleMetadata.get_category (m : SampleMetadata) : BitwigCategory :=
  map_tags_to_category m.sample_meta_data.tags

/-- Rust `Path::join` for the relative components produced here. -/
def pathJoin (base comp : String) : String := base ++ "/" ++ comp

/-- metadata.rs `get_library_path`:
`library_base / category / sanitize(pack name) / filename`. -/
def SampleMetadata.get_library_path (m : SampleMetadata) (libraryBase : String) : String :=
  pathJoin (pathJoin (pathJoin libraryBase m.get_category.as_str)
    (sanitize_filename m.sample_meta_data.pack.name)) m.sample_meta_data.filename

/-! ## The filesystem state

Regular files are an association list from path to byte content; `dirs`
records paths that exist as directories.  Reads, writes and removals are
the only filesystem effects the pipeline performs on files. -/

structure Fs where
  files : List (String × List Nat)
  dirs : List String
deriving DecidableEq, Repr

def Fs.read (fs : Fs) (p : String) : Option (List Nat) :=
  (fs.files.find? (fun e => e.1 == p)).map (fun e => e.2)

def Fs.isFile (fs : Fs) (p : String) : Bool :=
  (fs.read p).isSome

def Fs.pathExists (fs : Fs) (p : String) : Bool :=
  fs.isFile p || fs.dirs.contains p

def Fs.write (fs : Fs) (p : String) (b : List Nat) : Fs :=
  ⟨(p, b) :: fs.files.filter (fun e => !(e.1 == p)), fs.dirs⟩

def Fs.removeFile (fs : Fs) (p : String) : Fs :=
  ⟨fs.files.filter (fun e => !(e.1 == p)), fs.dirs⟩

/-! ## db.rs : the samples table

A catalog state is the list of committed rows, in insertion order.  A
connection-open failure of SQLite is environmental and is injected at the
call sites in the watcher model (`Env`), not here. -/

structure SampleRecord where
  id : Option Int
  file_path : String
  pack_name : String
  pack_uuid : String
  filename : String
  file_hash : String
  bpm : Option Nat
  audio_key : Option String
  chord_type : Option String
  tags : String
  mapped_category : String
  sample_type : String
  duration : Nat
  file_size : Nat
  provider_name : String
  date_downloaded : String
  splice_url : Option String
  preview_url : String
  asset_uuid : String
deriving DecidableEq, Repr

abbrev Db := List SampleRecord

/-- Models `serde_json::to_string` of the tag list (external crate):
a JSON array of the quoted tags.  Only carried along, never inspected. -/
def jsonStringOfTags (tags : List String) : String :=
  "[" ++ String.intercalate ","
    (tags.map (fun t => String.mk (Char.ofNat 34 :: (t.data ++ [Char.ofNat 34])))) ++ "]"

/-- db.rs `impl From<&SampleMetadata> for SampleRecord`, field for field.
Note that `file_hash` here is the hash carried inside the metadata
document; `process_sample_pair` overwrites it before inserting. -/
def sampleRecordFrom (m : SampleMetadata) : SampleRecord where
  id := none
  file_path := ""
  pack_name := m.sample_meta_data.pack.name
  pack_uuid := m.sample_meta_data.pack.uuid
  filename := m.sample_meta_data.filename
  file_hash := m.sample_meta_data.file_hash
  bpm := m.sample_meta_data.bpm
  audio_key := m.sample_meta_data.audio_key
  chord_type := m.sample_meta_data.chord_type
  tags := jsonStringOfTags m.sample_meta_data.tags
  mapped_category := m.get_category.as_str
  sample_type := m.sample_meta_data.sample_type
  duration := m.sample_meta_data.duration
  file_size := m.sample.file_size
  provider_name := m.sample_meta_data.provider_name
  date_downloaded := m.sample_meta_data.purchased_at
  splice_url := some m.sample.url
  preview_url := m.sample_meta_data.preview_url
  asset_uuid := m.sample_meta_data.asset_uuid

/-- db.rs `sample_exists_by_hash`: `SELECT 1 FROM samples WHERE file_hash = ?1`. -/
def sample_exists_by_hash (db : Db) (h : String) : Bool :=
  db.any (fun r => r.file_hash == h)

/-- db.rs `insert_sample`: refuse when the fingerprint is already present,
otherwise append the row.  (The returned rowid is not modelled.) -/
def insert_sample (db : Db) (record : SampleRecord) : Except String Db :=
  if sample_exists_by_hash db record.file_hash then
    Except.error ("Sample with hash " ++ record.file_hash ++ " already exists")
  else
    Except.ok (db ++ [record])

/-- db.rs `get_sample_by_hash`: the first row with the given fingerprint. -/
def get_sample_by_hash (db : Db) (h : String) : Option SampleRecord :=
  db.find? (fun r => r.file_hash == h)

/-! ## watcher.rs -/

/-- watcher.rs `validate_file`: exists, is a regular file, non-empty. -/
def validate_file (fs : Fs) (p fileType : String) : Except String Unit :=
  if !fs.pathExists p then
    Except.error (fileType ++ " file no longer exists: " ++ p)
  else if !fs.isFile p then
    Except.error (fileType ++ " path is not a file: " ++ p)
  else
    match fs.read p with
    | none => Except.error ("Cannot read " ++ fileType ++ " file metadata: " ++ p)
    | some b =>
        if b.length == 0 then Except.error (fileType ++ " file is empty: " ++ p)
        else Except.ok ()

/-- watcher.rs `calculate_file_hash`: read the file and hash its bytes. -/
def calculate_file_hash (fs : Fs) (p : String) : Except String String :=
  match fs.read p with
  | none => Except.error "Failed to read file for hashing"
  | some b => Except.ok (sha256hex b)

/-- watcher.rs `calculate_file_hash_with_retry`, unrolled for its constant
3 attempts over a per-attempt outcome oracle.  Second component: the trace
of sleep durations in milliseconds (`Duration::from_millis(1000)` between
failed attempts). -/
def calculate_file_hash_with_retry (att : Nat → Except String String) :
    Except String String × List Nat :=
  match att 1 with
  | .ok h => (.ok h, [])
  | .error _ =>
    match att 2 with
    | .ok h => (.ok h, [1000])
    | .error _ =>
      match att 3 with
      | .ok h => (.ok h, [1000, 1000])
      | .error e => (.error e, [1000, 1000])

/-- watcher.rs `insert_sample_with_retry`, same shape; the exhausted-retries
error wraps the final attempt's error in the message of line 331. -/
def insert_sample_with_retry (att : Nat → Except String Db) :
    Except String Db × List Nat :=
  match att 1 with
  | .ok db => (.ok db, [])
  | .error _ =>
    match att 2 with
    | .ok db => (.ok db, [1000])
    | .error _ =>
      match att 3 with
      | .ok db => (.ok db, [1000, 1000])
      | .error e =>
          (.error ("Failed to add sample to database after 3 attempts: " ++ e), [1000, 1000])

/-- watcher.rs `move_file_safely`: copy, stat both sides, compare lengths,
delete the target copy on mismatch, delete the source only on a verified
match.  `copyRes` is what `fs::copy` actually lands at the target (an
environmental truncation or failure is possible); the first component of
the result is the filesystem after the call. -/
def move_file_safely (fs : Fs) (source target : String)
    (copyRes : Except Unit (List Nat)) : Fs × Except String Unit :=
  match copyRes with
  | .error _ => (fs, Except.error "Failed to copy file to target")
  | .ok written =>
    let fs1 := fs.write target written
    match fs1.read source with
    | none => (fs1, Except.error "Failed to read source metadata")
    | some sb =>
      match fs1.read target with
      | none => (fs1, Except.error "Failed to read target metadata")
      | some tb =>
        if sb.length ≠ tb.length then
          (fs1.removeFile target, Except.error "File copy verification failed: size mismatch")
        else
          (fs1.removeFile source, Except.ok ())

/-- watcher.rs `cleanup_duplicate_files`: remove both files, failures only
logged. -/
def cleanup_duplicate_files (fs : Fs) (wav json : String) : Fs :=
  (fs.removeFile wav).removeFile json

/-- watcher.rs `cleanup_metadata_file`: remove the metadata file, failures
only logged. -/
def cleanup_metadata_file (fs : Fs) (json : String) : Fs :=
  fs.removeFile json

/-- The environmental outcomes of one `process_sample_pair` run: which
hash-read attempts succeed, whether the dedup lookup's connection fails,
what `fs::copy` lands at the target, and which insert attempts reach the
database. -/
structure Env where
  hashAtt : Nat → Bool
  lookupErr : Bool
  copyRes : Except Unit (List Nat)
  insertAtt : Nat → Bool

/-- watcher.rs `process_sample_pair` (lines 212-266), step for step:
validate both files, decode the metadata (`parseMeta` models serde_json,
an external crate), hash with retry, dedup lookup, relocate, insert with
retry, remove the metadata file. -/
def process_sample_pair (parseMeta : List Nat → Option SampleMetadata) (env : Env)
    (fs : Fs) (db : Db) (wav json libraryDir : String) :
    Fs × Db × Except String Unit :=
  match validate_file fs wav "WAV" with
  | .error e => (fs, db, .error e)
  | .ok _ =>
  match validate_file fs json "JSON" with
  | .error e => (fs, db, .error e)
  | .ok _ =>
  match fs.read json with
  | none => (fs, db, .error "Failed to read metadata file")
  | some jb =>
  match parseMeta jb with
  | none => (fs, db, .error "Failed to parse metadata")
  | some meta =>
  match (calculate_file_hash_with_retry
      (fun i => if env.hashAtt i then calculate_file_hash fs wav
                else Except.error "transient read failure")).1 with
  | .error e => (fs, db, .error e)
  | .ok hash =>
  if !env.lookupErr && (get_sample_by_hash db hash).isSome then
    (cleanup_duplicate_files fs wav json, db, .ok ())
  else
    match move_file_safely fs wav (meta.get_library_path libraryDir) env.copyRes with
    | (fs1, .error e) => (fs1, db, .error e)
    | (fs1, .ok _) =>
      match (insert_sample_with_retry
          (fun i => if env.insertAtt i then
              insert_sample db { sampleRecordFrom meta with
                file_path := meta.get_library_path libraryDir, file_hash := hash }
            else Except.error "connection failure")).1 with
      | .error e => (fs1, db, .error e)
      | .ok db1 => (cleanup_metadata_file fs1 json, db1, .ok ())

/-- Rust `Path::with_extension`: replace the extension of the final
component (the part after its last dot, if that dot is not its first
character), or append one. -/
def withExtension (p ext : String) : String :=
  let rev := p.data.reverse
  let revName := rev.takeWhile (fun c => !(c == '/'))
  let revDir := rev.dropWhile (fun c => !(c == '/'))
  let newRevName :=
    match revName.dropWhile (fun c => !(c == '.')) with
    | [] => ext.data.reverse ++ ('.' :: revName)
    | _ :: restRev =>
        if restRev.isEmpty then ext.data.reverse ++ ('.' :: revName)
        else ext.data.reverse ++ ('.' :: restRev)
  String.mk ((newRevName ++ revDir).reverse)

example : withExtension "watch/kick_01.wav" "json" = "watch/kick_01.json" := by decide

/-- The pairing-wait loop of `process_wav_file` (lines 154-158):
`while attempts < 10 && !json_path.exists() { sleep(500ms); attempts += 1 }`.
`fsAt k` is the filesystem as seen at the check after `k` sleeps.  Returns
the final `attempts` value and the trace of sleep durations. -/
def waitJsonGo (fsAt : Nat → Fs) (json : String) : Nat → Nat → Nat × List Nat
  | 0, att => (att, [])
  | fuel + 1, att =>
      if (fsAt att).pathExists json then (att, [])
      else
        let r := waitJsonGo fsAt json fuel (att + 1)
        (r.1, 500 :: r.2)

def waitJson (fsAt : Nat → Fs) (json : String) : Nat × List Nat :=
  waitJsonGo fsAt json 10 0

/-- watcher.rs `handle_orphaned_wav`: log only; no filesystem or catalog
effect. -/
def handle_orphaned_wav (fs : Fs) (db : Db) : Fs × Db × Except String Unit :=
  (fs, db, .ok ())

/-- watcher.rs `process_wav_file`: validate, wait for the metadata sibling
within the bounded window, then either process the pair or orphan. -/
def process_wav_file (parseMeta : List Nat → Option SampleMetadata) (env : Env)
    (fsAt : Nat → Fs) (db : Db) (wav libraryDir : String) :
    Fs × Db × Except String Unit :=
  match validate_file (fsAt 0) wav "WAV" with
  | .error e => (fsAt 0, db, .error e)
  | .ok _ =>
    let json := withExtension wav "json"
    let att := (waitJson fsAt json).1
    let fsNow := fsAt att
    if fsNow.pathExists json then
      process_sample_pair parseMeta env fsNow db wav json libraryDir
    else
      handle_orphaned_wav fsNow db

/-! ## Supporting lemmas -/

theorem startsWithL_refl (l : List Char) : startsWithL l l = true := by
  induction l with
  | nil => rfl
  | cons a t ih => simp [startsWithL, ih]

theorem containsL_append_right (pre n : List Char) : containsL n (pre ++ n) = true := by
  induction pre with
  | nil =>
      cases n with
      | nil => rfl
      | cons a t => simp [containsL, startsWithL_refl]
  | cons c cs ih => simp [containsL, ih]

/-- Any string of the form `a ++ b` contains `b`. -/
theorem strContains_append (a b : String) : strContains (a ++ b) b = true := by
  simpa [strContains] using containsL_append_right a.data b.data

theorem dropWhile_dropWhile (p : Char → Bool) (l : List Char) :
    List.dropWhile p (List.dropWhile p l) = List.dropWhile p l := by
  induction l with
  | nil => rfl
  | cons a t ih =>
    by_cases h : p a = true
    · simp [List.dropWhile_cons, h, ih]
    · simp at h
      simp [List.dropWhile_cons, h]

/-- If `l` has no leading whitespace, back-trimming keeps it that way. -/
theorem dropWhile_back_trim (p : Char → Bool) (l : List Char)
    (H : List.dropWhile p l = l) :
    List.dropWhile p ((List.dropWhile p l.reverse).reverse)
      = (List.dropWhile p l.reverse).reverse := by
  obtain ⟨tw, hsplit⟩ : ∃ tw, (List.dropWhile p l.reverse).reverse ++ tw = l :=
    ⟨(List.takeWhile p l.reverse).reverse, by
      rw [← List.reverse_append, List.takeWhile_append_dropWhile, List.reverse_reverse]⟩
  cases hur : (List.dropWhile p l.reverse).reverse with
  | nil => simp
  | cons a r =>
    have hl : l = a :: (r ++ tw) := by
      rw [← hsplit, hur, List.cons_append]
    have hpa : p a = false := by
      by_contra hcon
      have hpa2 : p a = true := by
        cases hv : p a
        · exact absurd hv hcon
        · rfl
      have hlen := (List.dropWhile_sublist (l := r ++ tw) (p := p)).length_le
      rw [hl, List.dropWhile_cons, if_pos hpa2] at H
      have hlen2 : (List.dropWhile p (r ++ tw)).length = (r ++ tw).length + 1 := by
        rw [H, List.length_cons]
      omega
    simp [List.dropWhile_cons, hpa]

theorem trimChars_idem (l : List Char) : trimChars (trimChars l) = trimChars l := by
  unfold trimChars
  have h1 : List.dropWhile isRustWhitespace (List.dropWhile isRustWhitespace l)
      = List.dropWhile isRustWhitespace l := dropWhile_dropWhile _ l
  rw [dropWhile_back_trim isRustWhitespace (List.dropWhile isRustWhitespace l) h1]
  rw [List.reverse_reverse, dropWhile_dropWhile]

theorem mem_trimChars {a : Char} {l : List Char} (h : a ∈ trimChars l) : a ∈ l := by
  unfold trimChars at h
  rw [List.mem_reverse] at h
  have h2 := (List.dropWhile_sublist (l := (List.dropWhile isRustWhitespace l).reverse)
    (p := isRustWhitespace)).mem h
  rw [List.mem_reverse] at h2
  exact (List.dropWhile_sublist (l := l) (p := isRustWhitespace)).mem h2

theorem filterMap_fixed {f : Char → Option Char} {l : List Char}
    (h : ∀ a ∈ l, f a = some a) : l.filterMap f = l := by
  induction l with
  | nil => rfl
  | cons a t ih =>
    rw [List.filterMap_cons, h a (by simp)]
    rw [ih (fun b hb => h b (by simp [hb]))]

/-- The characters the spec forbids in sanitizer output:
slash, backslash, colon, star, question mark, double quote, angle brackets. -/
def forbiddenSanitizeChars : List Char :=
  ['/', Char.ofNat 92, ':', '*', '?', Char.ofNat 34, '<', '>']

def safeChar (c : Char) : Bool :=
  !(forbiddenSanitizeChars.contains c) && !(isControlChar c)

theorem sanitizeChar_fix {c d : Char} (h : sanitizeChar c = some d) :
    sanitizeChar d = some d ∧ safeChar d = true := by
  unfold sanitizeChar at h
  split_ifs at h with h1 h2 h3 h4 h5 h6 h7
  · cases h; exact ⟨by decide, by decide⟩
  · cases h; exact ⟨by decide, by decide⟩
  · cases h; exact ⟨by decide, by decide⟩
  · cases h; exact ⟨by decide, by decide⟩
  · cases h; exact ⟨by decide, by decide⟩
  · cases h; exact ⟨by decide, by decide⟩
  · cases h
    refine ⟨?_, ?_⟩
    · unfold sanitizeChar
      rw [if_neg h1, if_neg h2, if_neg h3, if_neg h4, if_neg h5, if_neg h6, if_neg h7]
    · simp only [Bool.or_eq_true, decide_eq_true_eq, not_or] at h1 h3 h5
      obtain ⟨n1, n2⟩ := h1
      obtain ⟨⟨n3, n4⟩, n5⟩ := h3
      obtain ⟨n6, n7⟩ := h5
      simp only [safeChar, Bool.and_eq_true, Bool.not_eq_true]
      refine ⟨?_, ?_⟩
      · simp [forbiddenSanitizeChars, n1, n2, h2, n3, n4, h4, n6, n7]
      · cases hic : isControlChar c
        · rfl
        · exact absurd hic h7

theorem mem_sanitized_fix {a : Char} {l : List Char}
    (h : a ∈ trimChars (l.filterMap sanitizeChar)) :
    sanitizeChar a = some a ∧ safeChar a = true := by
  have h2 : a ∈ l.filterMap sanitizeChar := mem_trimChars h
  rw [List.mem_filterMap] at h2
  obtain ⟨c, _, hc⟩ := h2
  exact sanitizeChar_fix hc

/-- C7.  Sanitization is idempotent and its output contains none of the
forbidden characters `/ \ : * ? " < >` and no control character. -/
theorem sanitize_filename_idempotent_and_safe (name : String) :
    sanitize_filename (sanitize_filename name) = sanitize_filename name ∧
    (sanitize_filename name).data.all safeChar = true := by
  constructor
  · unfold sanitize_filename
    rw [filterMap_fixed (fun a ha => (mem_sanitized_fix ha).1)]
    rw [trimChars_idem]
  · rw [List.all_eq_true]
    intro a ha
    exact (mem_sanitized_fix (l := name.data) ha).2

theorem firstRuleMatch_eq_findSome (l : List String) :
    firstRuleMatch l = (l.findSome? tagRule).getD BitwigCategory.Unknown := by
  induction l with
  | nil => rfl
  | cons t ts ih =>
    unfold firstRuleMatch
    rw [List.findSome?_cons]
    cases h : tagRule t <;> simp [h, ih]

/-- C6.  The derived target path is
`library_root / category / sanitize(pack name) / filename`, and the
category is the first-match rule table over the case-folded tags,
defaulting to `Unknown` when no tag matches any rule
(`List.findSome? tagRule` is the first-match form written from the spec). -/
theorem get_library_path_spec (m : SampleMetadata) (base : String) :
    m.get_library_path base
      = base ++ "/" ++ (map_tags_to_category m.sample_meta_data.tags).as_str ++ "/" ++
        sanitize_filename m.sample_meta_data.pack.name ++ "/" ++ m.sample_meta_data.filename ∧
    map_tags_to_category m.sample_meta_data.tags
      = ((m.sample_meta_data.tags.map rustToLower).findSome? tagRule).getD
          BitwigCategory.Unknown := by
  constructor
  · rfl
  · exact firstRuleMatch_eq_findSome _

/-! ## Catalog uniqueness (C3) -/

/-- Fold a batch of inserts through `insert_sample`, keeping the previous
catalog state whenever an insert is refused. -/
def insertAll (db : Db) (rs : List SampleRecord) : Db :=
  rs.foldl (fun d r => match insert_sample d r with
    | .ok d1 => d1
    | .error _ => d) db

/-- The content fingerprint is unique among catalog entries. -/
def UniqueHashes (db : Db) : Prop :=
  db.Pairwise (fun a b => a.file_hash ≠ b.file_hash)

theorem insertAll_preserves_unique (rs : List SampleRecord) (db : Db)
    (h : UniqueHashes db) : UniqueHashes (insertAll db rs) := by
  induction rs generalizing db with
  | nil => exact h
  | cons r rest ih =>
    show UniqueHashes (insertAll (match insert_sample db r with
      | .ok d1 => d1
      | .error _ => db) rest)
    apply ih
    cases hins : insert_sample db r with
    | error e => exact h
    | ok db1 =>
      unfold insert_sample at hins
      by_cases hex : sample_exists_by_hash db r.file_hash = true
      · rw [if_pos hex] at hins
        cases hins
      · rw [if_neg hex] at hins
        cases hins
        rw [UniqueHashes, List.pairwise_append]
        refine ⟨h, by simp, ?_⟩
        intro a ha b hb
        simp only [List.mem_singleton] at hb
        subst hb
        unfold sample_exists_by_hash at hex
        rw [Bool.not_eq_true, List.any_eq_false] at hex
        have := hex a ha
        simpa using this

/-- C3.  Inserting a record whose fingerprint is already in the catalog is
refused (the catalog is unchanged since the refused insert returns no new
state), and any sequence of inserts preserves fingerprint uniqueness. -/
theorem insert_sample_unique_fingerprint (db : Db) (r : SampleRecord)
    (rs : List SampleRecord) :
    ((∃ x ∈ db, x.file_hash = r.file_hash) → ∃ e, insert_sample db r = Except.error e) ∧
    (UniqueHashes db → UniqueHashes (insertAll db rs)) := by
  constructor
  · intro ⟨x, hx, hh⟩
    refine ⟨"Sample with hash " ++ r.file_hash ++ " already exists", ?_⟩
    unfold insert_sample
    rw [if_pos]
    unfold sample_exists_by_hash
    rw [List.any_eq_true]
    exact ⟨x, hx, by simp [hh]⟩
  · exact insertAll_preserves_unique rs db

/-! ## Filesystem lemmas -/

theorem find?_key_filter (l : List (String × List Nat)) (p q : String) (h : q ≠ p) :
    (l.filter (fun e => !(e.1 == p))).find? (fun e => e.1 == q)
      = l.find? (fun e => e.1 == q) := by
  induction l with
  | nil => rfl
  | cons a t ih =>
    by_cases hq : a.1 = q
    · have hap : (a.1 == p) = false := by
        rw [beq_eq_false_iff_ne]
        intro hc
        exact h (hq.symm.trans hc)
      rw [List.filter_cons_of_pos (by simp [hap])]
      rw [List.find?_cons_of_pos _ (by simp [hq]), List.find?_cons_of_pos _ (by simp [hq])]
    · by_cases hap : a.1 = p
      · rw [List.filter_cons_of_neg (by simp [hap])]
        rw [List.find?_cons_of_neg _ (by simp [hq]), ih]
      · rw [List.filter_cons_of_pos (by simp [hap])]
        rw [List.find?_cons_of_neg _ (by simp [hq]), List.find?_cons_of_neg _ (by simp [hq]), ih]

theorem Fs.read_write_self (fs : Fs) (p : String) (b : List Nat) :
    (fs.write p b).read p = some b := by
  simp only [Fs.read, Fs.write]
  rw [List.find?_cons_of_pos _ (by simp)]
  rfl

theorem Fs.read_write_ne (fs : Fs) (p q : String) (b : List Nat) (h : q ≠ p) :
    (fs.write p b).read q = fs.read q := by
  simp only [Fs.read, Fs.write]
  rw [List.find?_cons_of_neg _ (by simp; exact fun hc => h hc.symm)]
  rw [find?_key_filter fs.files p q h]

theorem Fs.read_removeFile_self (fs : Fs) (p : String) :
    (fs.removeFile p).read p = none := by
  simp only [Fs.read, Fs.removeFile]
  rw [List.find?_eq_none.mpr]
  · rfl
  · intro e he
    rw [List.mem_filter] at he
    simpa using he.2

theorem Fs.read_removeFile_ne (fs : Fs) (p q : String) (h : q ≠ p) :
    (fs.removeFile p).read q = fs.read q := by
  simp only [Fs.read, Fs.removeFile]
  rw [find?_key_filter fs.files p q h]

/-! ## The retry wrappers (C5) -/

/-- C5 counterexample.  When every attempt fails, both retry wrappers
sleep a constant 1000ms between attempts — not the exponential
`1000ms × 2^(attempt-1)` schedule the claim states. -/
theorem retry_backoff_counterexample :
    (calculate_file_hash_with_retry (fun _ => Except.error "io error")).2 = [1000, 1000] ∧
    (insert_sample_with_retry (fun _ => Except.error "io error")).2 = [1000, 1000] ∧
    ([1000, 1000] : List Nat) ≠ [1000 * 2 ^ (1 - 1), 1000 * 2 ^ (2 - 1)] :=
  ⟨rfl, rfl, by decide⟩

/-- C5 amended.  Both retry wrappers make at most 3 attempts, sleep a
constant 1000ms between consecutive attempts, return the first success,
and return the final attempt's error when all attempts fail (the insert
wrapper wraps it in its exhausted-attempts message). -/
theorem retry_wrappers_spec (f : Nat → Except String String) (g : Nat → Except String Db) :
    ((∃ h, f 1 = .ok h ∧ calculate_file_hash_with_retry f = (.ok h, [])) ∨
     (∃ e1 h, f 1 = .error e1 ∧ f 2 = .ok h ∧
        calculate_file_hash_with_retry f = (.ok h, [1000])) ∨
     (∃ e1 e2 h, f 1 = .error e1 ∧ f 2 = .error e2 ∧ f 3 = .ok h ∧
        calculate_file_hash_with_retry f = (.ok h, [1000, 1000])) ∨
     (∃ e1 e2 e3, f 1 = .error e1 ∧ f 2 = .error e2 ∧ f 3 = .error e3 ∧
        calculate_file_hash_with_retry f = (.error e3, [1000, 1000]))) ∧
    ((∃ d, g 1 = .ok d ∧ insert_sample_with_retry g = (.ok d, [])) ∨
     (∃ e1 d, g 1 = .error e1 ∧ g 2 = .ok d ∧
        insert_sample_with_retry g = (.ok d, [1000])) ∨
     (∃ e1 e2 d, g 1 = .error e1 ∧ g 2 = .error e2 ∧ g 3 = .ok d ∧
        insert_sample_with_retry g = (.ok d, [1000, 1000])) ∨
     (∃ e1 e2 e3, g 1 = .error e1 ∧ g 2 = .error e2 ∧ g 3 = .error e3 ∧
        insert_sample_with_retry g =
          (.error ("Failed to add sample to database after 3 attempts: " ++ e3),
           [1000, 1000]))) := by
  constructor
  · cases h1 : f 1 with
    | ok hv => exact Or.inl ⟨hv, rfl, by simp [calculate_file_hash_with_retry, h1]⟩
    | error e1 =>
      cases h2 : f 2 with
      | ok hv =>
          exact Or.inr (Or.inl ⟨e1, hv, rfl, rfl, by
            simp [calculate_file_hash_with_retry, h1, h2]⟩)
      | error e2 =>
        cases h3 : f 3 with
        | ok hv =>
            exact Or.inr (Or.inr (Or.inl ⟨e1, e2, hv, rfl, rfl, rfl, by
              simp [calculate_file_hash_with_retry, h1, h2, h3]⟩))
        | error e3 =>
            exact Or.inr (Or.inr (Or.inr ⟨e1, e2, e3, rfl, rfl, rfl, by
              simp [calculate_file_hash_with_retry, h1, h2, h3]⟩))
  · cases h1 : g 1 with
    | ok dv => exact Or.inl ⟨dv, rfl, by simp [insert_sample_with_retry, h1]⟩
    | error e1 =>
      cases h2 : g 2 with
      | ok dv =>
          exact Or.inr (Or.inl ⟨e1, dv, rfl, rfl, by
            simp [insert_sample_with_retry, h1, h2]⟩)
      | error e2 =>
        cases h3 : g 3 with
        | ok dv =>
            exact Or.inr (Or.inr (Or.inl ⟨e1, e2, dv, rfl, rfl, rfl, by
              simp [insert_sample_with_retry, h1, h2, h3]⟩))
        | error e3 =>
            exact Or.inr (Or.inr (Or.inr ⟨e1, e2, e3, rfl, rfl, rfl, by
              simp [insert_sample_with_retry, h1, h2, h3]⟩))

/-! ## Verified relocation (C2) -/

/-- C2.  A relocation deletes the source only when the copy succeeded and
the byte-lengths of source and target were compared and found equal; on a
size mismatch the freshly written target copy is deleted, the call errors,
and the source file is untouched. -/
theorem move_file_safely_spec (fs : Fs) (source target : String)
    (copyRes : Except Unit (List Nat)) (sb : List Nat)
    (hne : source ≠ target) (hsrc : fs.read source = some sb) :
    (∀ w, copyRes = Except.ok w → w.length = sb.length →
      move_file_safely fs source target copyRes
        = ((fs.write target w).removeFile source, Except.ok ()) ∧
      ((fs.write target w).removeFile source).read source = none ∧
      ((fs.write target w).removeFile source).read target = some w) ∧
    (∀ w, copyRes = Except.ok w → w.length ≠ sb.length →
      move_file_safely fs source target copyRes
        = ((fs.write target w).removeFile target,
           Except.error "File copy verification failed: size mismatch") ∧
      ((fs.write target w).removeFile target).read source = some sb) ∧
    ((move_file_safely fs source target copyRes).1.read source = none →
      ∃ w, copyRes = Except.ok w ∧ w.length = sb.length) := by
  have hs1 : ∀ w, (fs.write target w).read source = some sb := fun w => by
    rw [Fs.read_write_ne fs target source w hne, hsrc]
  have ht1 : ∀ w, (fs.write target w).read target = some w := fun w =>
    Fs.read_write_self fs target w
  refine ⟨?_, ?_, ?_⟩
  · intro w hw hlen
    subst hw
    refine ⟨?_, ?_, ?_⟩
    · simp [move_file_safely, hs1 w, ht1 w, hlen]
    · rw [Fs.read_removeFile_self]
    · rw [Fs.read_removeFile_ne _ _ _ (fun hc => hne hc.symm), ht1 w]
  · intro w hw hlen
    subst hw
    have hlen2 : ¬sb.length = w.length := fun hc => hlen hc.symm
    refine ⟨?_, ?_⟩
    · simp [move_file_safely, hs1 w, ht1 w, hlen2]
    · rw [Fs.read_removeFile_ne _ _ _ hne, hs1 w]
  · intro hgone
    cases hw : copyRes with
    | error e =>
        rw [hw] at hgone
        simp [move_file_safely, hsrc] at hgone
    | ok w =>
        rw [hw] at hgone
        by_cases hlen : sb.length = w.length
        · exact ⟨w, rfl, hlen.symm⟩
        · exfalso
          have : move_file_safely fs source target (Except.ok w)
              = ((fs.write target w).removeFile target,
                 Except.error "File copy verification failed: size mismatch") := by
            simp [move_file_safely, hs1 w, ht1 w, hlen]
          rw [this] at hgone
          rw [Fs.read_removeFile_ne _ _ _ hne, hs1 w] at hgone
          cases hgone

/-- C2 witness: a 3-byte file relocates (source gone, target written) when
the copy lands intact, and a truncated copy is rolled back with the
source untouched. -/
theorem move_file_safely_spec_witness :
    (move_file_safely ⟨[("s.wav", [1, 2, 3])], []⟩ "s.wav" "lib/t.wav" (Except.ok [1, 2, 3])
      = ((Fs.write ⟨[("s.wav", [1, 2, 3])], []⟩ "lib/t.wav" [1, 2, 3]).removeFile "s.wav",
         Except.ok ())) ∧
    (move_file_safely ⟨[("s.wav", [1, 2, 3])], []⟩ "s.wav" "lib/t.wav" (Except.ok [1, 2])
      = ((Fs.write ⟨[("s.wav", [1, 2, 3])], []⟩ "lib/t.wav" [1, 2]).removeFile "lib/t.wav",
         Except.error "File copy verification failed: size mismatch")) :=
  ⟨((move_file_safely_spec ⟨[("s.wav", [1, 2, 3])], []⟩ "s.wav" "lib/t.wav"
      (Except.ok [1, 2, 3]) [1, 2, 3] (by decide) rfl).1 [1, 2, 3] rfl (by decide)).1,
   ((move_file_safely_spec ⟨[("s.wav", [1, 2, 3])], []⟩ "s.wav" "lib/t.wav"
      (Except.ok [1, 2]) [1, 2, 3] (by decide) rfl).2.1 [1, 2] rfl (by decide)).1⟩

/-! ## Validation (C9) -/

/-- C9 counterexample.  For the concrete empty file `a.wav` (size 0),
validation fails with a message that names the path but nowhere contains
its size — the claim that the error names "the offending path and its
size" is false on the code. -/
theorem validate_file_size_counterexample :
    validate_file ⟨[("a.wav", [])], []⟩ "a.wav" "WAV"
      = Except.error "WAV file is empty: a.wav" ∧
    strContains "WAV file is empty: a.wav" "a.wav" = true ∧
    strContains "WAV file is empty: a.wav" "0" = false :=
  ⟨rfl, by decide, by decide⟩

/-- C9 amended.  Validation succeeds exactly when the path is a regular
file with non-zero size; every validation failure carries an error that
names the offending path (not its size); and a validation failure of
either file aborts `process_sample_pair` with no filesystem or catalog
effect. -/
theorem validate_file_spec (fs : Fs) (p t : String) :
    (validate_file fs p t = Except.ok () ↔ ∃ b, fs.read p = some b ∧ b.length ≠ 0) ∧
    (∀ m, validate_file fs p t = Except.error m → strContains m p = true) ∧
    (∀ pm env db json lib m, validate_file fs p "WAV" = Except.error m →
      process_sample_pair pm env fs db p json lib = (fs, db, Except.error m)) ∧
    (∀ pm env db wav lib m, validate_file fs wav "WAV" = Except.ok () →
      validate_file fs p "JSON" = Except.error m →
      process_sample_pair pm env fs db wav p lib = (fs, db, Except.error m)) := by
  refine ⟨?_, ?_, ?_, ?_⟩
  · cases hr : fs.read p with
    | none =>
        simp only [validate_file, Fs.isFile, Fs.pathExists, hr, Option.isSome_none]
        constructor
        · intro h
          split at h <;> cases h
        · rintro ⟨b, hb, -⟩
          cases hb
    | some b =>
      by_cases hb : b.length = 0
      · simp [validate_file, Fs.isFile, Fs.pathExists, hr, hb]
        exact List.length_eq_zero.mp hb
      · simp [validate_file, Fs.isFile, Fs.pathExists, hr, hb]
        exact fun hc => hb (by rw [hc]; rfl)
  · intro m h
    unfold validate_file at h
    split_ifs at h with h1 h2
    · cases h
      exact strContains_append _ _
    · cases h
      exact strContains_append _ _
    · split at h
      · cases h
        exact strContains_append _ _
      · split at h
        · cases h
          exact strContains_append _ _
        · cases h
  · intro pm env db json lib m h
    simp [process_sample_pair, h]
  · intro pm env db wav lib m hok h
    simp [process_sample_pair, hok, h]

/-- C9 witness: a 1-byte file validates; a missing file's error names its
path. -/
theorem validate_file_spec_witness :
    (validate_file ⟨[("w.wav", [1])], []⟩ "w.wav" "WAV" = Except.ok ()) ∧
    strContains "WAV file no longer exists: gone.wav" "gone.wav" = true :=
  ⟨(validate_file_spec ⟨[("w.wav", [1])], []⟩ "w.wav" "WAV").1.mpr ⟨[1], rfl, by decide⟩,
   (validate_file_spec ⟨[], []⟩ "gone.wav" "WAV").2.1 "WAV file no longer exists: gone.wav" rfl⟩

/-! ## The pairing-wait window (C8) -/

theorem waitJsonGo_never (fsAt : Nat → Fs) (json : String) (fuel att : Nat)
    (h : ∀ k, k ≤ att + fuel → (fsAt k).pathExists json = false) :
    waitJsonGo fsAt json fuel att = (att + fuel, List.replicate fuel 500) := by
  induction fuel generalizing att with
  | zero => simp [waitJsonGo]
  | succ n ih =>
    have h0 : (fsAt att).pathExists json = false := h att (by omega)
    have hrec := ih (att + 1) (fun k hk => h k (by omega))
    unfold waitJsonGo
    rw [h0]
    simp only [Bool.false_eq_true, if_false, hrec, List.replicate_succ]
    rw [Prod.mk.injEq]
    constructor
    · omega
    · rfl

/-- C8.  If the metadata sibling never appears at any of the bounded
window's existence checks (10 polls of 500ms each plus the final check),
the unit ends orphaned: the pipeline returns success having changed
nothing — the catalog is untouched and the binary is neither moved nor
deleted (the resulting filesystem is exactly the ambient snapshot). -/
theorem orphaned_wav_spec (pm : List Nat → Option SampleMetadata) (env : Env)
    (fsAt : Nat → Fs) (db : Db) (wav lib : String) (wb : List Nat)
    (hw : (fsAt 0).read wav = some wb) (hwne : wb.length ≠ 0)
    (hnever : ∀ k, k ≤ 10 → (fsAt k).pathExists (withExtension wav "json") = false) :
    process_wav_file pm env fsAt db wav lib = (fsAt 10, db, Except.ok ()) ∧
    waitJson fsAt (withExtension wav "json") = (10, List.replicate 10 500) := by
  have hwait : waitJson fsAt (withExtension wav "json") = (10, List.replicate 10 500) := by
    have h10 := waitJsonGo_never fsAt (withExtension wav "json") 10 0
      (fun k hk => hnever k (by omega))
    simpa [waitJson] using h10
  have hval : validate_file (fsAt 0) wav "WAV" = Except.ok () := by
    simp [validate_file, Fs.isFile, Fs.pathExists, hw, hwne]
  refine ⟨?_, hwait⟩
  simp [process_wav_file, hval, hwait, hnever 10 (by omega), handle_orphaned_wav]

/-- C8 witness: a lone 1-byte `w.wav` with no `w.json` at any poll is left
in place with no catalog write. -/
theorem orphaned_wav_spec_witness :
    process_wav_file (fun _ => none) ⟨fun _ => true, false, Except.error (), fun _ => true⟩
      (fun _ => ⟨[("w.wav", [1])], []⟩) [] "w.wav" "L"
      = (⟨[("w.wav", [1])], []⟩, [], Except.ok ()) :=
  (orphaned_wav_spec (fun _ => none) ⟨fun _ => true, false, Except.error (), fun _ => true⟩
    (fun _ => ⟨[("w.wav", [1])], []⟩) [] "w.wav" "L" [1] rfl (by decide) (by decide)).1

/-! ## Extracting the underlying outcome from a constant-oracle retry -/

theorem hash_retry_ok (c : Nat → Bool) (v : Except String String) (s : String)
    (h : (calculate_file_hash_with_retry
        (fun i => if c i then v else Except.error "transient read failure")).1
      = Except.ok s) : v = Except.ok s := by
  cases hv : v with
  | ok a =>
      cases h1 : c 1 <;> cases h2 : c 2 <;> cases h3 : c 3 <;>
        simp_all [calculate_file_hash_with_retry]
  | error e =>
      exfalso
      cases h1 : c 1 <;> cases h2 : c 2 <;> cases h3 : c 3 <;>
        simp_all [calculate_file_hash_with_retry]

theorem insert_retry_ok (c : Nat → Bool) (v : Except String Db) (d : Db)
    (h : (insert_sample_with_retry
        (fun i => if c i then v else Except.error "connection failure")).1
      = Except.ok d) : v = Except.ok d := by
  cases hv : v with
  | ok a =>
      cases h1 : c 1 <;> cases h2 : c 2 <;> cases h3 : c 3 <;>
        simp_all [insert_sample_with_retry]
  | error e =>
      exfalso
      cases h1 : c 1 <;> cases h2 : c 2 <;> cases h3 : c 3 <;>
        simp_all [insert_sample_with_retry]

/-! ## Concrete example values used by witnesses -/

def exPack : Pack :=
  ⟨"pu-1", "My Pack/2024", "", "Prov", "", "", "", "", 1, 0, "", false⟩

def exSample : Sample :=
  ⟨"http://x", "p", "sas-1", "metahash-not-the-content-hash", 4, ⟨"wav", "pcm", "dh", 4⟩, 1⟩

def exSMD : SampleMetaData :=
  ⟨none, some 120, none, "d", 1, "metahash-not-the-content-hash", "kick_01.wav", exPack,
   "purl", 0, "Prov", "puid", "pp", "oneshot", ["kick"], "wurl", true, 0, 0, "pa",
   "2024-01-01", "sas-1", false, true, "au-1"⟩

def exMeta : SampleMetadata := ⟨exSample, exSMD, none, none⟩

/-- The catalog row holding the SHA-256 of the 4-byte content `AAAA`. -/
def exRecAAAA : SampleRecord :=
  { sampleRecordFrom exMeta with
      file_path := "L/Kick/My Pack-2024/kick_01.wav",
      file_hash := "63c1dd951ffedf6f7fd968ad4efa39b8ed584f162f46e715114ee184f8de9201" }

def exFs : Fs := ⟨[("kick_01.wav", [65, 65, 65, 65]), ("kick_01.json", [123])], []⟩

/-- A second distinct fingerprint for batch-insert witnesses. -/
def exRec2 : SampleRecord :=
  { sampleRecordFrom exMeta with file_path := "L/other.wav", file_hash := "h2" }

def exEnvOk : Env := ⟨fun _ => true, false, Except.ok [65, 65, 65, 65], fun _ => true⟩

/-- The record the all-successful run commits for the `AAAA` pair. -/
def exRecOut : SampleRecord :=
  { sampleRecordFrom exMeta with
      file_path := exMeta.get_library_path "L",
      file_hash := sha256hex [65, 65, 65, 65] }

/-! ## The duplicate path (C1) -/

/-- C1.  When the computed fingerprint already has a catalog entry and the
dedup lookup succeeds, processing removes both files, returns success, and
performs no relocation and no catalog mutation (the catalog state — hence
its row count — is unchanged, and the only filesystem change is the
removal of the two source files). -/
theorem process_duplicate_spec (pm : List Nat → Option SampleMetadata) (env : Env)
    (fs : Fs) (db : Db) (wav json lib : String) (wb jb : List Nat)
    (meta : SampleMetadata) (r : SampleRecord)
    (hw : fs.read wav = some wb) (hwne : wb.length ≠ 0)
    (hj : fs.read json = some jb) (hjne : jb.length ≠ 0)
    (hpm : pm jb = some meta)
    (hhash : env.hashAtt 1 = true)
    (hlk : env.lookupErr = false)
    (hdup : get_sample_by_hash db (sha256hex wb) = some r) :
    process_sample_pair pm env fs db wav json lib
      = (cleanup_duplicate_files fs wav json, db, Except.ok ()) ∧
    (cleanup_duplicate_files fs wav json).read wav = none ∧
    (cleanup_duplicate_files fs wav json).read json = none := by
  have hval1 : validate_file fs wav "WAV" = Except.ok () := by
    simp [validate_file, Fs.isFile, Fs.pathExists, hw, hwne]
  have hval2 : validate_file fs json "JSON" = Except.ok () := by
    simp [validate_file, Fs.isFile, Fs.pathExists, hj, hjne]
  have hcf : calculate_file_hash fs wav = Except.ok (sha256hex wb) := by
    simp [calculate_file_hash, hw]
  have hretry : (calculate_file_hash_with_retry
      (fun i => if env.hashAtt i then calculate_file_hash fs wav
                else Except.error "transient read failure")).1
      = Except.ok (sha256hex wb) := by
    simp [calculate_file_hash_with_retry, hhash, hcf]
  refine ⟨?_, ?_, ?_⟩
  · simp [process_sample_pair, hval1, hval2, hj, hpm, hretry, hlk, hdup]
  · by_cases hwj : json = wav
    · subst hwj
      exact Fs.read_removeFile_self _ _
    · unfold cleanup_duplicate_files
      rw [Fs.read_removeFile_ne _ _ _ (fun hc => hwj hc.symm)]
      exact Fs.read_removeFile_self _ _
  · exact Fs.read_removeFile_self _ _

/-- C1 witness: re-dropping the `AAAA` pair against a catalog already
holding its fingerprint deletes both files and leaves the single row. -/
theorem process_duplicate_spec_witness :
    process_sample_pair (fun _ => some exMeta)
      ⟨fun _ => true, false, Except.error (), fun _ => true⟩
      exFs [exRecAAAA] "kick_01.wav" "kick_01.json" "L"
      = (cleanup_duplicate_files exFs "kick_01.wav" "kick_01.json",
         [exRecAAAA], Except.ok ()) :=
  (process_duplicate_spec (fun _ => some exMeta)
    ⟨fun _ => true, false, Except.error (), fun _ => true⟩
    exFs [exRecAAAA] "kick_01.wav" "kick_01.json" "L"
    [65, 65, 65, 65] [123] exMeta exRecAAAA rfl (by decide) rfl (by decide)
    rfl rfl rfl (by decide)).1

/-! ## Lookup failure falls through to the insert check (C10) -/

/-- C10.  When the dedup lookup itself errors, processing does not abort
and does not treat the unit as a duplicate: the binary is relocated, and
if the fingerprint is in fact already in the catalog it is the insert
path's own existence check that rejects the unit (catalog unchanged, the
metadata file is not cleaned up, and the error wraps the insert error). -/
theorem lookup_error_relies_on_insert (pm : List Nat → Option SampleMetadata) (env : Env)
    (fs : Fs) (db : Db) (wav json lib : String) (wb jb : List Nat)
    (meta : SampleMetadata) (r : SampleRecord)
    (hw : fs.read wav = some wb) (hwne : wb.length ≠ 0)
    (hj : fs.read json = some jb) (hjne : jb.length ≠ 0)
    (hpm : pm jb = some meta)
    (hhash : env.hashAtt 1 = true)
    (hlk : env.lookupErr = true)
    (hcopy : env.copyRes = Except.ok wb)
    (hins : ∀ i, env.insertAtt i = true)
    (hne : wav ≠ meta.get_library_path lib)
    (hdup : get_sample_by_hash db (sha256hex wb) = some r) :
    process_sample_pair pm env fs db wav json lib
      = ((fs.write (meta.get_library_path lib) wb).removeFile wav, db,
         Except.error ("Failed to add sample to database after 3 attempts: "
           ++ ("Sample with hash " ++ sha256hex wb ++ " already exists"))) := by
  have hval1 : validate_file fs wav "WAV" = Except.ok () := by
    simp [validate_file, Fs.isFile, Fs.pathExists, hw, hwne]
  have hval2 : validate_file fs json "JSON" = Except.ok () := by
    simp [validate_file, Fs.isFile, Fs.pathExists, hj, hjne]
  have hcf : calculate_file_hash fs wav = Except.ok (sha256hex wb) := by
    simp [calculate_file_hash, hw]
  have hretry : (calculate_file_hash_with_retry
      (fun i => if env.hashAtt i then calculate_file_hash fs wav
                else Except.error "transient read failure")).1
      = Except.ok (sha256hex wb) := by
    simp [calculate_file_hash_with_retry, hhash, hcf]
  have hex : sample_exists_by_hash db (sha256hex wb) = true := by
    unfold get_sample_by_hash at hdup
    unfold sample_exists_by_hash
    rw [List.any_eq_true]
    exact ⟨r, List.mem_of_find?_eq_some (p := fun x : SampleRecord => x.file_hash == sha256hex wb) hdup,
      List.find?_some (p := fun x : SampleRecord => x.file_hash == sha256hex wb) hdup⟩
  have hmv : move_file_safely fs wav (meta.get_library_path lib) (Except.ok wb)
      = ((fs.write (meta.get_library_path lib) wb).removeFile wav, Except.ok ()) := by
    simp [move_file_safely, Fs.read_write_ne fs (meta.get_library_path lib) wav wb hne, hw,
      Fs.read_write_self]
  have hrec : insert_sample db
      { sampleRecordFrom meta with
          file_path := meta.get_library_path lib, file_hash := sha256hex wb }
      = Except.error ("Sample with hash " ++ sha256hex wb ++ " already exists") := by
    unfold insert_sample
    rw [if_pos]
    exact hex
  simp [process_sample_pair, hval1, hval2, hj, hpm, hretry, hlk, hcopy, hmv,
    insert_sample_with_retry, hins 1, hins 2, hins 3, hrec]

/-- C10 witness: with a failing lookup and the fingerprint already in the
catalog, the binary still relocates and the insert check rejects it. -/
theorem lookup_error_relies_on_insert_witness :
    process_sample_pair (fun _ => some exMeta)
      ⟨fun _ => true, true, Except.ok [65, 65, 65, 65], fun _ => true⟩
      exFs [exRecAAAA] "kick_01.wav" "kick_01.json" "L"
      = ((exFs.write (exMeta.get_library_path "L") [65, 65, 65, 65]).removeFile "kick_01.wav",
         [exRecAAAA],
         Except.error ("Failed to add sample to database after 3 attempts: "
           ++ ("Sample with hash " ++ sha256hex [65, 65, 65, 65] ++ " already exists"))) :=
  lookup_error_relies_on_insert (fun _ => some exMeta)
    ⟨fun _ => true, true, Except.ok [65, 65, 65, 65], fun _ => true⟩
    exFs [exRecAAAA] "kick_01.wav" "kick_01.json" "L"
    [65, 65, 65, 65] [123] exMeta exRecAAAA rfl (by decide) rfl (by decide)
    rfl rfl rfl rfl (fun i => rfl) (by decide) (by decide)

/-! ## Committed fingerprints are computed fresh (C4) -/

/-- C4.  Any record that a `process_sample_pair` run adds to the catalog
carries as its content fingerprint exactly the SHA-256 lowercase hex
digest of the binary file's byte content read during the attempt — never
the `file_hash` carried inside the metadata document (`sampleRecordFrom`
copies the metadata hash, but it is overwritten before the insert). -/
theorem committed_fingerprint_fresh (pm : List Nat → Option SampleMetadata) (env : Env)
    (fs : Fs) (db : Db) (wav json lib : String) (out : Fs × Db × Except String Unit)
    (hrun : process_sample_pair pm env fs db wav json lib = out)
    (r : SampleRecord) (hr : r ∈ out.2.1) (hnew : r ∉ db) :
    ∃ wb, fs.read wav = some wb ∧ r.file_hash = sha256hex wb := by
  unfold process_sample_pair at hrun
  split at hrun
  · cases hrun; exact absurd hr hnew
  · split at hrun
    · cases hrun; exact absurd hr hnew
    · split at hrun
      · cases hrun; exact absurd hr hnew
      · split at hrun
        · cases hrun; exact absurd hr hnew
        · split at hrun
          · cases hrun; exact absurd hr hnew
          · split at hrun
            · cases hrun; exact absurd hr hnew
            · split at hrun
              · cases hrun; exact absurd hr hnew
              · split at hrun
                · cases hrun; exact absurd hr hnew
                · cases hrun
                  rename_i x3 meta heq3 x2 hash hhash hnd x1 fs1 u hmv x0 db1 hins
                  have hinsert := insert_retry_ok _ _ _ hins
                  unfold insert_sample at hinsert
                  split at hinsert
                  · cases hinsert
                  · cases hinsert
                    simp only [List.mem_append, List.mem_singleton] at hr
                    cases hr with
                    | inl hin => exact absurd hin hnew
                    | inr hin =>
                      subst hin
                      have hv := hash_retry_ok _ _ _ hhash
                      unfold calculate_file_hash at hv
                      cases hrd : fs.read wav with
                      | none => rw [hrd] at hv; cases hv
                      | some wb =>
                        rw [hrd] at hv
                        cases hv
                        exact ⟨wb, rfl, rfl⟩

/-- C4 witness: the record committed for the `AAAA` pair carries the
digest of the binary bytes, not the metadata hash. -/
theorem committed_fingerprint_fresh_witness :
    ∃ wb, exFs.read "kick_01.wav" = some wb ∧ exRecOut.file_hash = sha256hex wb :=
  committed_fingerprint_fresh (fun _ => some exMeta) exEnvOk exFs [] "kick_01.wav"
    "kick_01.json" "L"
    (process_sample_pair (fun _ => some exMeta) exEnvOk exFs [] "kick_01.wav"
      "kick_01.json" "L")
    rfl exRecOut (by decide) (by decide)

/-- C3 witness: inserting a fingerprint twice is refused; a batch of
inserts keeps fingerprints unique. -/
theorem insert_sample_unique_fingerprint_witness :
    (∃ e, insert_sample [exRecAAAA] exRecAAAA = Except.error e) ∧
    UniqueHashes (insertAll [exRecAAAA] [exRec2, exRec2]) :=
  ⟨(insert_sample_unique_fingerprint [exRecAAAA] exRecAAAA [exRec2, exRec2]).1
      ⟨exRecAAAA, by decide, rfl⟩,
   (insert_sample_unique_fingerprint [exRecAAAA] exRecAAAA [exRec2, exRec2]).2
      (by simp [UniqueHashes])⟩

end SpliceAlt
